import Mathlib

/-!
Verification of the criage-mcp package-manager core against its specification.

The Go source is shallowly embedded:

* Go structs become Lean structures.  `time.Time` values are modelled as `Nat`
  timestamps, `int64` as `Int`, `float64` relevance scores as `Int` (a linearly
  ordered numeric type; the sorting logic under verification does not depend on
  floating-point rounding), and `map[string]T` as association lists with unique
  keys.  Struct fields of type `map[string]interface{}` (`Metadata`) and the
  unused `Hooks` pointer are omitted, as no verified operation reads them.
* The two persisted partition documents (`packages.json` in the global and the
  local path) and the in-memory `installedPackages` map form an explicit
  `PMState` record that every mutating operation threads through.
* I/O outcomes (HTTP responses, archive extraction, file writes) are passed in
  as data: each fallible step's result is a field of an environment record, so
  a run of an operation is a pure function of the state, the remote world and
  those outcomes.  Panics (Go `close` of a closed channel) are modelled as
  `Except.error`.
-/

namespace Criage

/-- Installed-package record (`PackageInfo` in types.go). -/
structure PackageInfo where
  name : String
  version : String
  description : String
  author : String
  license : String
  installDate : Nat
  installPath : String
  global : Bool
  dependencies : List (String × String)
  size : Int
  files : List String
  scripts : List (String × String)
deriving DecidableEq, Repr

/-- Platform-specific package file (`RepositoryFile` in types.go). -/
structure RepositoryFile where
  os : String
  arch : String
  format : String
  filename : String
  size : Int
  checksum : String
deriving DecidableEq, Repr

/-- One published version of a package (`RepositoryVersion` in types.go). -/
structure RepositoryVersion where
  version : String
  description : String
  dependencies : List (String × String)
  devDeps : List (String × String)
  files : List RepositoryFile
  size : Int
  checksum : String
  uploaded : Nat
  downloads : Int
deriving DecidableEq, Repr

/-- Repository-side package metadata (`RepositoryPackage` in types.go). -/
structure RepositoryPackage where
  name : String
  description : String
  author : String
  license : String
  homepage : String
  repository : String
  keywords : List String
  versions : List RepositoryVersion
  downloads : Int
  updated : Nat
deriving DecidableEq, Repr

/-- A configured repository (`Repository` in types.go). -/
structure Repository where
  name : String
  url : String
  priority : Int
  enabled : Bool
  authToken : String
deriving DecidableEq, Repr

/-- One search hit (`SearchResult` in types.go); `Score float64` is modelled
as an `Int`. -/
structure SearchResult where
  name : String
  version : String
  description : String
  author : String
  downloads : Int
  updated : Nat
  score : Int
deriving DecidableEq, Repr

/-- Package manifest read from the unpacked tree (`PackageManifest` in
types.go); `Hooks` and `Metadata` are omitted (never read by the verified
operations). -/
structure PackageManifest where
  name : String
  version : String
  description : String
  author : String
  license : String
  homepage : String
  repository : String
  keywords : List String
  dependencies : List (String × String)
  devDeps : List (String × String)
  files : List String
  scripts : List (String × String)
deriving DecidableEq, Repr

/-! ### Association-list model of Go's `map[string]T`

A JSON mapping document and the in-memory map are both modelled as association
lists.  `insertA` and `eraseA` keep at most one binding per key; `lookupA`
returns the first binding. -/

/-- First binding of key `k`, mirroring a Go map read `m[k]`. -/
def lookupA {α : Type} (m : List (String × α)) (k : String) : Option α :=
  match m with
  | [] => none
  | (k', v) :: rest => if k' = k then some v else lookupA rest k

/-- Remove every binding of key `k`, mirroring Go's `delete(m, k)`. -/
def eraseA {α : Type} (m : List (String × α)) (k : String) : List (String × α) :=
  match m with
  | [] => []
  | (k', v) :: rest => if k' = k then eraseA rest k else (k', v) :: eraseA rest k

/-- Bind key `k` to `v`, replacing any previous binding, mirroring Go's
`m[k] = v`. -/
def insertA {α : Type} (m : List (String × α)) (k : String) (v : α) :
    List (String × α) :=
  (k, v) :: eraseA m k

theorem lookupA_eraseA_self {α : Type} (m : List (String × α)) (k : String) :
    lookupA (eraseA m k) k = none := by
  induction m with
  | nil => rfl
  | cons hd tl ih =>
    obtain ⟨k', v⟩ := hd
    by_cases h : k' = k
    · simp [eraseA, h, ih]
    · simp [eraseA, lookupA, h, ih]

theorem lookupA_eraseA_ne {α : Type} (m : List (String × α)) (k' k : String)
    (h : k' ≠ k) : lookupA (eraseA m k') k = lookupA m k := by
  induction m with
  | nil => rfl
  | cons hd tl ih =>
    obtain ⟨k₀, v⟩ := hd
    by_cases h0 : k₀ = k'
    · have : k₀ ≠ k := by rw [h0]; exact h
      simp [eraseA, lookupA, h0, this, h, ih]
    · simp [eraseA, lookupA, h0, ih]

theorem lookupA_insertA_self {α : Type} (m : List (String × α)) (k : String)
    (v : α) : lookupA (insertA m k v) k = some v := by
  simp [insertA, lookupA]

theorem lookupA_insertA_ne {α : Type} (m : List (String × α)) (k' k : String)
    (v : α) (h : k' ≠ k) : lookupA (insertA m k' v) k = lookupA m k := by
  simp [insertA, lookupA, h, lookupA_eraseA_ne m k' k h]

theorem lookupA_eq_none_of_not_mem {α : Type} (m : List (String × α))
    (k : String) (h : k ∉ m.map Prod.fst) : lookupA m k = none := by
  induction m with
  | nil => rfl
  | cons hd tl ih =>
    obtain ⟨k', v⟩ := hd
    simp only [List.map_cons, List.mem_cons] at h
    push_neg at h
    simp [lookupA, Ne.symm h.1, ih h.2]

/-! ### Registry state and load-at-startup -/

/-- Registry state: the persisted global and local partition documents
(`packages.json` under `GlobalPath` resp. `LocalPath`) and the in-memory
`installedPackages` map of the `PackageManager`. -/
structure PMState where
  globalFile : List (String × PackageInfo)
  localFile : List (String × PackageInfo)
  mem : List (String × PackageInfo)
deriving DecidableEq, Repr

/-- `loadPackagesFromFile`: merge one partition document into the in-memory
map; every binding of the document overwrites an existing binding of the same
name. -/
def loadPackagesFromFile (mem doc : List (String × PackageInfo)) :
    List (String × PackageInfo) :=
  doc.foldl (fun acc nv => insertA acc nv.1 nv.2) mem

/-- `loadInstalledPackages`: starting from an empty map, load the global
partition document, then the local one. -/
def loadInstalledPackages (globalFile localFile : List (String × PackageInfo)) :
    List (String × PackageInfo) :=
  loadPackagesFromFile (loadPackagesFromFile [] globalFile) localFile

/-! ### Resolver -/

/-- A configured repository together with its remote contents (the packages
the endpoint would serve by name).  The HTTP exchange of `findInRepository`
is modelled by a lookup in this document; an absent name covers both a 404
and a transport failure, which the caller treats alike. -/
abbrev RepoEntry : Type := Repository × List (String × RepositoryPackage)

/-- Version selection of `findInRepository`: an empty request takes the last
entry of the repository-supplied version list, otherwise the first entry with
the requested version string. -/
def selectVersion (versions : List RepositoryVersion) (version : String) :
    Option RepositoryVersion :=
  if version = "" then versions.getLast?
  else versions.find? (fun v => v.version == version)

/-- File selection of `findInRepository`: the first file whose OS and
architecture both match the request. -/
def selectFile (files : List RepositoryFile) (arch osName : String) :
    Option RepositoryFile :=
  files.find? (fun f => f.os == osName && f.arch == arch)

/-- `findInRepository`: query one repository for the package, pick a version
and a platform file, and produce the resolved package shape plus the download
URL. -/
def findInRepository (repo : Repository)
    (pkgs : List (String × RepositoryPackage))
    (packageName version arch osName : String) :
    Except String (PackageInfo × String) :=
  match lookupA pkgs packageName with
  | none => .error "пакет не найден в репозитории"
  | some pkg =>
    match selectVersion pkg.versions version with
    | none => .error ("версия " ++ version ++ " не найдена")
    | some selectedVersion =>
      match selectFile selectedVersion.files arch osName with
      | none => .error ("файл для " ++ osName ++ "/" ++ arch ++ " не найден")
      | some selectedFile =>
        let info : PackageInfo :=
          { name := pkg.name
            version := selectedVersion.version
            description := pkg.description
            author := pkg.author
            license := pkg.license
            installDate := 0
            installPath := ""
            global := false
            dependencies := []
            size := selectedFile.size
            files := []
            scripts := [] }
        let downloadURL := repo.url ++ "/api/v1/download/" ++ pkg.name ++ "/"
          ++ selectedVersion.version ++ "/" ++ selectedFile.filename
        .ok (info, downloadURL)

/-- `findPackage`: walk the configured repository list in its given order,
skip disabled repositories, and return the first successful resolution; when
a repository errors for any reason the loop moves on to the next one. -/
def findPackage (repos : List RepoEntry)
    (packageName version arch osName : String) :
    Except String (PackageInfo × String) :=
  match repos with
  | [] => .error ("пакет " ++ packageName ++ " не найден")
  | (repo, pkgs) :: rest =>
    if repo.enabled then
      match findInRepository repo pkgs packageName version arch osName with
      | .ok r => .ok r
      | .error _ => findPackage rest packageName version arch osName
    else findPackage rest packageName version arch osName

/-! ### Install / uninstall / update -/

deriving instance DecidableEq for Except

/-- Outcomes of the I/O steps of `InstallPackage`, passed in as data.
`extract` stands for the archive codec capability: `extractArchive` in the
source is an unimplemented stub that always fails, and the spec directs
modelling the codec as an injected capability that may succeed or fail
cleanly. -/
structure InstallEnv where
  download : Except String Unit
  extract : Except String Unit
  manifest : Except String PackageManifest
  removeOld : Except String Unit
  mkdirInstall : Except String Unit
  copyStep : Except String Unit
  dirSize : Int
  now : Nat
  writeOk : Bool
deriving DecidableEq, Repr

/-- `getInstallPath`: install directory under the global or the local path. -/
def getInstallPath (globalPath localPath packageName : String)
    (global : Bool) : String :=
  if global then globalPath ++ "/" ++ packageName
  else localPath ++ "/" ++ packageName

/-- `savePackageInfo`: read-modify-write of the partition document selected by
the record's own `Global` flag, inserting the record under its `Name` field;
`writeOk` models whether the final file write succeeds. -/
def savePackageInfo (st : PMState) (writeOk : Bool) (info : PackageInfo) :
    Except String PMState :=
  if writeOk then
    if info.global then
      .ok { st with globalFile := insertA st.globalFile info.name info }
    else
      .ok { st with localFile := insertA st.localFile info.name info }
  else .error "ошибка записи файла"

/-- `removePackageInfo`: read-modify-write of the partition document selected
by the `global` argument, deleting the binding of `packageName`. -/
def removePackageInfo (st : PMState) (writeOk : Bool) (packageName : String)
    (global : Bool) : Except String PMState :=
  if writeOk then
    if global then
      .ok { st with globalFile := eraseA st.globalFile packageName }
    else
      .ok { st with localFile := eraseA st.localFile packageName }
  else .error "ошибка записи файла"

/-- Error message of the already-installed rejection in `InstallPackage`. -/
def alreadyInstalledMsg (packageName installedVersion : String) : String :=
  "пакет " ++ packageName ++ " (" ++ installedVersion ++ ") уже установлен"

/-- The `PackageInfo` record that `InstallPackage` constructs after a
successful unpack: every descriptive field comes from the unpacked manifest,
not from the resolver's answer or the requested name. -/
def installedRecord (manifest : PackageManifest) (env : InstallEnv)
    (installPath : String) (global : Bool) : PackageInfo :=
  { name := manifest.name
    version := manifest.version
    description := manifest.description
    author := manifest.author
    license := manifest.license
    installDate := env.now
    installPath := installPath
    global := global
    dependencies := manifest.dependencies
    size := env.dirSize
    files := manifest.files
    scripts := manifest.scripts }

/-- Body of `InstallPackage` after the already-installed check: resolve,
download, extract, read the manifest, (on `force`) remove the old directory,
create the install directory, copy files, persist the record in the partition
document, and finally bind the record in the in-memory map under the
requested name.  Any failing step returns the error with the state
untouched. -/
def installPackageCore (st : PMState) (repos : List RepoEntry)
    (env : InstallEnv) (globalPath localPath packageName version : String)
    (global force : Bool) (arch osName goarch goos : String) :
    Except String Unit × PMState :=
  let archR := if arch = "" then goarch else arch
  let osR := if osName = "" then goos else osName
  match findPackage repos packageName version archR osR with
  | .error e => (.error ("пакет не найден: " ++ e), st)
  | .ok _ =>
    match env.download with
    | .error e => (.error ("ошибка скачивания: " ++ e), st)
    | .ok _ =>
      match env.extract with
      | .error e => (.error ("ошибка извлечения: " ++ e), st)
      | .ok _ =>
        match env.manifest with
        | .error e => (.error ("ошибка загрузки манифеста: " ++ e), st)
        | .ok manifest =>
          let installPath := getInstallPath globalPath localPath packageName global
          match (if force then env.removeOld else .ok ()) with
          | .error e => (.error ("ошибка удаления старой версии: " ++ e), st)
          | .ok _ =>
            match env.mkdirInstall with
            | .error e => (.error ("ошибка создания директории: " ++ e), st)
            | .ok _ =>
              match env.copyStep with
              | .error e => (.error ("ошибка копирования файлов: " ++ e), st)
              | .ok _ =>
                let packageInfo := installedRecord manifest env installPath global
                match savePackageInfo st env.writeOk packageInfo with
                | .error e =>
                  (.error ("ошибка сохранения информации о пакете: " ++ e), st)
                | .ok st' =>
                  (.ok (), { st' with mem := insertA st'.mem packageName packageInfo })

/-- `InstallPackage`: unless `force` is set, reject with already-installed
when a record for the requested name exists and the requested version is
empty or equal to the installed one; otherwise run the install pipeline. -/
def InstallPackage (st : PMState) (repos : List RepoEntry) (env : InstallEnv)
    (globalPath localPath packageName version : String)
    (global force dev : Bool) (arch osName goarch goos : String) :
    Except String Unit × PMState :=
  if force then
    installPackageCore st repos env globalPath localPath packageName version
      global force arch osName goarch goos
  else
    match lookupA st.mem packageName with
    | some info =>
      if version = "" || info.version = version then
        (.error (alreadyInstalledMsg packageName info.version), st)
      else
        installPackageCore st repos env globalPath localPath packageName
          version global force arch osName goarch goos
    | none =>
      installPackageCore st repos env globalPath localPath packageName version
        global force arch osName goarch goos

/-- Outcomes of the I/O steps of `UninstallPackage`. -/
structure UninstallEnv where
  removeDir : Except String Unit
  writeOk : Bool
deriving DecidableEq, Repr

/-- `UninstallPackage`: look the name up in the in-memory map (the `global`
argument plays no part in this check), remove the install directory, delete
the persisted record from the partition selected by the `global` argument,
and drop the in-memory binding. -/
def UninstallPackage (st : PMState) (env : UninstallEnv)
    (packageName : String) (global purge : Bool) :
    Except String Unit × PMState :=
  match lookupA st.mem packageName with
  | none => (.error ("пакет " ++ packageName ++ " не установлен"), st)
  | some _ =>
    match env.removeDir with
    | .error e => (.error ("ошибка удаления файлов: " ++ e), st)
    | .ok _ =>
      match removePackageInfo st env.writeOk packageName global with
      | .error e => (.error ("ошибка удаления информации о пакете: " ++ e), st)
      | .ok st' => (.ok (), { st' with mem := eraseA st'.mem packageName })

/-- `UpdatePackage`: require an installed record, resolve the latest version
for the running platform, short-circuit when it equals the installed version,
otherwise re-run the install with `force` set and the record's own scope. -/
def UpdatePackage (st : PMState) (repos : List RepoEntry) (env : InstallEnv)
    (globalPath localPath packageName goarch goos : String) :
    Except String Unit × PMState :=
  match lookupA st.mem packageName with
  | none => (.error ("пакет " ++ packageName ++ " не установлен"), st)
  | some currentInfo =>
    match findPackage repos packageName "" goarch goos with
    | .error e => (.error ("не удалось найти обновления: " ++ e), st)
    | .ok (latestInfo, _) =>
      if currentInfo.version = latestInfo.version then
        (.error ("пакет " ++ packageName ++ " уже имеет последнюю версию ("
          ++ currentInfo.version ++ ")"), st)
      else
        InstallPackage st repos env globalPath localPath packageName
          latestInfo.version currentInfo.global true false "" "" goarch goos

/-! ### Search -/

/-- A configured repository together with the outcome its search endpoint
would return for the query under consideration: a result list, or a
transport/HTTP failure. -/
abbrev SearchEntry : Type := Repository × Except String (List SearchResult)

/-- The accumulation loop of `SearchPackages`: skip disabled repositories,
drop failing ones, append the rest. -/
def searchGather (repos : List SearchEntry) : List SearchResult :=
  repos.foldl
    (fun acc entry =>
      if entry.1.enabled then
        match entry.2 with
        | .ok results => acc ++ results
        | .error _ => acc
      else acc)
    []

/-- `SearchPackages`: gather all results and sort them by descending score
(`sort.Slice` with `Score i > Score j`; any sorted reordering is a faithful
refinement since the Go sort is unstable). -/
def SearchPackages (repos : List SearchEntry) : List SearchResult :=
  (searchGather repos).mergeSort (fun a b => b.score ≤ a.score)

/-! ### Rate limiter -/

/-- Observable state of the `RateLimiter`: the coerced tick rate, whether the
ticker is running, and whether the permit channel has been closed. -/
structure RateLimiter where
  rate : Int
  tickerRunning : Bool
  requestsClosed : Bool
deriving DecidableEq, Repr

/-- `NewRateLimiter`: a non-positive requested rate is coerced to the default
of 10; the ticker starts running with the permit channel open. -/
def NewRateLimiter (requestsPerSecond : Int) : RateLimiter :=
  let rps := if requestsPerSecond ≤ 0 then 10 else requestsPerSecond
  { rate := rps, tickerRunning := true, requestsClosed := false }

/-- `RateLimiter.Close` stops the ticker and closes the permit channel.  In
Go, `close` of an already-closed channel panics; the panic is modelled as an
error result. -/
def RateLimiter.Close (rl : RateLimiter) : Except String RateLimiter :=
  if rl.requestsClosed then .error "close of closed channel"
  else .ok { rl with tickerRunning := false, requestsClosed := true }

/-! ### Lemmas about load-at-startup -/

theorem lookupA_loadPackagesFromFile (mem doc : List (String × PackageInfo))
    (k : String) (hd : (doc.map Prod.fst).Nodup) :
    lookupA (loadPackagesFromFile mem doc) k =
      match lookupA doc k with
      | some v => some v
      | none => lookupA mem k := by
  induction doc generalizing mem with
  | nil => rfl
  | cons hdp tl ih =>
    obtain ⟨k', v⟩ := hdp
    simp only [List.map_cons, List.nodup_cons] at hd
    have hstep : loadPackagesFromFile mem ((k', v) :: tl)
        = loadPackagesFromFile (insertA mem k' v) tl := rfl
    rw [hstep, ih (insertA mem k' v) hd.2]
    by_cases h : k' = k
    · subst h
      have hnone : lookupA tl k' = none := lookupA_eq_none_of_not_mem tl k' hd.1
      simp [lookupA, hnone, lookupA_insertA_self]
    · cases hlt : lookupA tl k <;>
        simp [lookupA, h, hlt, lookupA_insertA_ne mem k' k v h,
          lookupA_eraseA_ne mem k' k h]

/-- C1 (amended): the in-memory registry is keyed by package name alone.
Load-at-startup merges the global and then the local partition document into
one name-keyed map, so a name present in both partitions yields a single
record — the local partition's, which overwrites the global one — and every
operation addressing the name observes that single record, whatever scope it
asks for. -/
theorem C1_registry_keyed_by_name_alone
    (globalFile localFile : List (String × PackageInfo))
    (hg : (globalFile.map Prod.fst).Nodup)
    (hl : (localFile.map Prod.fst).Nodup) (name : String) :
    lookupA (loadInstalledPackages globalFile localFile) name =
      match lookupA localFile name with
      | some info => some info
      | none => lookupA globalFile name := by
  unfold loadInstalledPackages
  rw [lookupA_loadPackagesFromFile _ _ _ hl,
    lookupA_loadPackagesFromFile _ _ _ hg]
  cases lookupA localFile name <;> cases lookupA globalFile name <;>
    simp [lookupA]

/-- Global-partition record used in the C1 theorems. -/
def gInfoC1 : PackageInfo :=
  { name := "pkg", version := "1.0.0", description := "", author := ""
    license := "", installDate := 0, installPath := "/g/pkg", global := true
    dependencies := [], size := 0, files := [], scripts := [] }

/-- Local-partition record of the same name used in the C1 theorems. -/
def lInfoC1 : PackageInfo :=
  { gInfoC1 with version := "2.0.0", installPath := "./m/pkg", global := false }

/-- C1 witness: at a concrete pair of partition documents sharing the name
"pkg", the merged map holds exactly the local record. -/
theorem C1_registry_keyed_by_name_alone_witness :
    lookupA (loadInstalledPackages [("pkg", gInfoC1)] [("pkg", lInfoC1)]) "pkg"
      = some lInfoC1 := by
  have h := C1_registry_keyed_by_name_alone [("pkg", gInfoC1)]
    [("pkg", lInfoC1)] (by decide) (by decide) "pkg"
  rw [h]
  rfl

/-- C1 counterexample: a name present in both partition documents yields one
in-memory record, not two; the global-scope record is replaced by the local
one and is no longer observable. -/
theorem C1_counterexample :
    loadInstalledPackages [("pkg", gInfoC1)] [("pkg", lInfoC1)]
      = [("pkg", lInfoC1)] ∧ gInfoC1 ≠ lInfoC1 := by
  constructor
  · rfl
  · decide

/-- C8 (amended): on a limiter whose permit channel is still open, `Close`
succeeds and stops the background ticker, but it is not idempotent: a second
`Close` panics in Go (`close` of a closed channel), modelled as an error. -/
theorem C8_close_stops_ticker_but_not_idempotent (rl : RateLimiter)
    (h : rl.requestsClosed = false) :
    rl.Close = .ok { rl with tickerRunning := false, requestsClosed := true }
    ∧ ({ rl with tickerRunning := false, requestsClosed := true }
        : RateLimiter).Close = .error "close of closed channel" := by
  constructor
  · simp [RateLimiter.Close, h]
  · simp [RateLimiter.Close]

/-- C8 witness: a freshly constructed limiter closes once and then fails on
the second close. -/
theorem C8_close_stops_ticker_but_not_idempotent_witness :
    (NewRateLimiter 5).Close
      = .ok { NewRateLimiter 5 with tickerRunning := false, requestsClosed := true }
    ∧ ({ NewRateLimiter 5 with tickerRunning := false, requestsClosed := true }
        : RateLimiter).Close = .error "close of closed channel" :=
  C8_close_stops_ticker_but_not_idempotent (NewRateLimiter 5) (by decide)

/-- C8 counterexample: calling `Close` a second time after a first `Close`
fails (the permit channel is already closed), refuting idempotence. -/
theorem C8_counterexample :
    ((NewRateLimiter 100).Close.bind RateLimiter.Close)
      = .error "close of closed channel" := by decide

/-! ### C2: resolution falls through across repositories -/

/-- Whether an `Except` value is a success. -/
def isOkE {ε α : Type} : Except ε α → Bool
  | .ok _ => true
  | .error _ => false

/-- C2 (amended): resolution falls through.  When every enabled repository
before some repository fails to satisfy the request (in particular when one
of them contains the package but offers no matching platform file), and that
repository is enabled and fully satisfies name, version and platform, then
`findPackage` returns that repository's resolution; it does not stop at the
earlier partial match. -/
theorem C2_resolution_falls_through (pre rest : List RepoEntry)
    (repo : Repository) (pkgs : List (String × RepositoryPackage))
    (r : PackageInfo × String) (packageName version arch osName : String)
    (hpre : ∀ e ∈ pre,
      isOkE (findInRepository e.1 e.2 packageName version arch osName) = false)
    (henabled : repo.enabled = true)
    (hok : findInRepository repo pkgs packageName version arch osName = .ok r) :
    findPackage (pre ++ (repo, pkgs) :: rest) packageName version arch osName
      = .ok r := by
  induction pre with
  | nil => simp [findPackage, henabled, hok]
  | cons e tl ih =>
    obtain ⟨re, de⟩ := e
    have he := hpre (re, de) (by simp)
    have htl : ∀ e ∈ tl,
        isOkE (findInRepository e.1 e.2 packageName version arch osName) = false :=
      fun e he' => hpre e (by simp [he'])
    by_cases hen : re.enabled
    · cases hfi : findInRepository re de packageName version arch osName with
      | ok v => rw [hfi] at he; simp [isOkE] at he
      | error msg =>
        simp only [List.cons_append, findPackage, hen, if_true, hfi]
        exact ih htl
    · simp only [List.cons_append, findPackage, hen, if_false]
      exact ih htl

/-- Disabled repository of the C2 scenario (priority 0). -/
def repoP1C2 : Repository :=
  { name := "P1", url := "http://p1", priority := 0, enabled := false
    authToken := "" }

/-- Priority-1 repository of the C2 scenario: it serves the package but only
with a windows build. -/
def repoP2C2 : Repository :=
  { name := "P2", url := "http://p2", priority := 1, enabled := true
    authToken := "" }

/-- Priority-2 repository of the C2 scenario: it serves the package with a
matching linux/amd64 build. -/
def repoP3C2 : Repository :=
  { name := "P3", url := "http://p3", priority := 2, enabled := true
    authToken := "" }

/-- Windows-only package file of the C2 scenario. -/
def fileWindowsC2 : RepositoryFile :=
  { os := "windows", arch := "amd64", format := "tar.zst"
    filename := "q-1.0.0-windows-amd64.tar.zst", size := 11, checksum := "w" }

/-- Linux package file of the C2 scenario. -/
def fileLinuxC2 : RepositoryFile :=
  { os := "linux", arch := "amd64", format := "tar.zst"
    filename := "q-1.0.0-linux-amd64.tar.zst", size := 10, checksum := "l" }

/-- Contents of the priority-1 repository in the C2 scenario. -/
def pkgsP2C2 : List (String × RepositoryPackage) :=
  [("q", { name := "q", description := "", author := "", license := ""
           homepage := "", repository := "", keywords := []
           versions := [{ version := "1.0.0", description := ""
                          dependencies := [], devDeps := []
                          files := [fileWindowsC2], size := 11, checksum := ""
                          uploaded := 0, downloads := 0 }]
           downloads := 0, updated := 0 })]

/-- Contents of the priority-2 repository in the C2 scenario. -/
def pkgsP3C2 : List (String × RepositoryPackage) :=
  [("q", { name := "q", description := "", author := "", license := ""
           homepage := "", repository := "", keywords := []
           versions := [{ version := "1.0.0", description := ""
                          dependencies := [], devDeps := []
                          files := [fileLinuxC2], size := 10, checksum := ""
                          uploaded := 0, downloads := 0 }]
           downloads := 0, updated := 0 })]

/-- The resolved package shape produced by the priority-2 repository in the
C2 scenario. -/
def infoP3C2 : PackageInfo :=
  { name := "q", version := "1.0.0", description := "", author := ""
    license := "", installDate := 0, installPath := "", global := false
    dependencies := [], size := 10, files := [], scripts := [] }

/-- C2 witness: in the exact scenario of the claim — first repository
disabled, second containing the package with the wrong platform only, third
with a matching platform file — resolution returns the third repository's
artifact. -/
theorem C2_resolution_falls_through_witness :
    findPackage [(repoP1C2, []), (repoP2C2, pkgsP2C2), (repoP3C2, pkgsP3C2)]
      "q" "" "amd64" "linux"
      = .ok (infoP3C2, "http://p3/api/v1/download/q/1.0.0/q-1.0.0-linux-amd64.tar.zst") :=
  C2_resolution_falls_through [(repoP1C2, []), (repoP2C2, pkgsP2C2)] []
    repoP3C2 pkgsP3C2 _ "q" "" "amd64" "linux" (by decide) (by decide)
    (by decide)

/-- C2 counterexample: in the claim's own scenario, `findPackage` succeeds
with the lower-priority repository's artifact instead of failing with
not-found, refuting the claim. -/
theorem C2_counterexample :
    findPackage [(repoP1C2, []), (repoP2C2, pkgsP2C2), (repoP3C2, pkgsP3C2)]
      "q" "" "amd64" "linux"
      = .ok (infoP3C2, "http://p3/api/v1/download/q/1.0.0/q-1.0.0-linux-amd64.tar.zst")
    ∧ (selectVersion
        (match lookupA pkgsP2C2 "q" with
          | some pkg => pkg.versions
          | none => []) "") ≠ none := by
  constructor
  · decide
  · decide

/-! ### C3: consultation order is the configuration order, not priority -/

theorem findInRepository_ignores_priority (re : Repository) (p : Int)
    (de : List (String × RepositoryPackage))
    (packageName version arch osName : String) :
    findInRepository { re with priority := p } de packageName version arch osName
      = findInRepository re de packageName version arch osName := rfl

/-- C3 (amended): `findPackage` consults repositories in the order the
configuration lists them, skipping disabled ones; the `Priority` field is
never consulted — rewriting every repository's priority arbitrarily leaves
resolution unchanged, and a disabled repository is skipped outright. -/
theorem C3_config_order_priority_ignored (repos rest : List RepoEntry)
    (repo : Repository) (pkgs : List (String × RepositoryPackage))
    (f : Int → Int) (packageName version arch osName : String) :
    findPackage
        (repos.map (fun e => ({ e.1 with priority := f e.1.priority }, e.2)))
        packageName version arch osName
      = findPackage repos packageName version arch osName
    ∧ findPackage (({ repo with enabled := false }, pkgs) :: rest)
        packageName version arch osName
      = findPackage rest packageName version arch osName := by
  constructor
  · induction repos with
    | nil => rfl
    | cons e tl ih =>
      obtain ⟨re, de⟩ := e
      simp only [List.map_cons, findPackage, findInRepository_ignores_priority,
        ih]
  · simp [findPackage]

/-- Config-order-first repository of the C3 scenario: enabled, priority 2,
serving version 2.0.0. -/
def repoAC3 : Repository :=
  { name := "A", url := "http://a", priority := 2, enabled := true
    authToken := "" }

/-- Config-order-second repository of the C3 scenario: enabled, priority 1
(the numerically lowest, so the one the claim says must be consulted first),
serving version 1.0.0. -/
def repoBC3 : Repository :=
  { name := "B", url := "http://b", priority := 1, enabled := true
    authToken := "" }

/-- Contents of repository A in the C3 scenario. -/
def pkgsAC3 : List (String × RepositoryPackage) :=
  [("q", { name := "q", description := "", author := "", license := ""
           homepage := "", repository := "", keywords := []
           versions := [{ version := "2.0.0", description := ""
                          dependencies := [], devDeps := []
                          files := [{ os := "linux", arch := "amd64"
                                      format := "tar.zst"
                                      filename := "q-2.0.0-linux-amd64.tar.zst"
                                      size := 20, checksum := "a" }]
                          size := 20, checksum := "", uploaded := 0
                          downloads := 0 }]
           downloads := 0, updated := 0 })]

/-- Contents of repository B in the C3 scenario. -/
def pkgsBC3 : List (String × RepositoryPackage) :=
  [("q", { name := "q", description := "", author := "", license := ""
           homepage := "", repository := "", keywords := []
           versions := [{ version := "1.0.0", description := ""
                          dependencies := [], devDeps := []
                          files := [{ os := "linux", arch := "amd64"
                                      format := "tar.zst"
                                      filename := "q-1.0.0-linux-amd64.tar.zst"
                                      size := 21, checksum := "b" }]
                          size := 21, checksum := "", uploaded := 0
                          downloads := 0 }]
           downloads := 0, updated := 0 })]

/-- Resolution shape served by repository A in the C3 scenario. -/
def infoAC3 : PackageInfo :=
  { name := "q", version := "2.0.0", description := "", author := ""
    license := "", installDate := 0, installPath := "", global := false
    dependencies := [], size := 20, files := [], scripts := [] }

/-- Resolution shape served by repository B in the C3 scenario. -/
def infoBC3 : PackageInfo :=
  { name := "q", version := "1.0.0", description := "", author := ""
    license := "", installDate := 0, installPath := "", global := false
    dependencies := [], size := 21, files := [], scripts := [] }

/-- C3 counterexample: with the same two enabled repositories in the two
possible configuration orders, `findPackage` returns two different results —
in the first order it answers from the priority-2 repository even though the
priority-1 repository also satisfies the request.  Consultation therefore
follows the configuration order, not ascending priority. -/
theorem C3_counterexample :
    findPackage [(repoAC3, pkgsAC3), (repoBC3, pkgsBC3)] "q" "" "amd64" "linux"
      = .ok (infoAC3, "http://a/api/v1/download/q/2.0.0/q-2.0.0-linux-amd64.tar.zst")
    ∧ findPackage [(repoBC3, pkgsBC3), (repoAC3, pkgsAC3)] "q" "" "amd64" "linux"
      = .ok (infoBC3, "http://b/api/v1/download/q/1.0.0/q-1.0.0-linux-amd64.tar.zst")
    ∧ infoAC3 ≠ infoBC3
    ∧ repoBC3.priority < repoAC3.priority := by
  refine ⟨by decide, by decide, by decide, by decide⟩

/-! ### C4: the already-installed guard -/

/-- C4 (amended): with `force` false and a record installed under the
requested name, `InstallPackage` fails with already-installed exactly when
the requested version is empty or equals the installed version; a differing
non-empty requested version proceeds into the install pipeline without
`force`. -/
theorem C4_already_installed_guard (st : PMState) (repos : List RepoEntry)
    (env : InstallEnv) (globalPath localPath packageName version : String)
    (global dev : Bool) (arch osName goarch goos : String)
    (info : PackageInfo) (hmem : lookupA st.mem packageName = some info) :
    ((version = "" ∨ info.version = version) →
      InstallPackage st repos env globalPath localPath packageName version
          global false dev arch osName goarch goos
        = (.error (alreadyInstalledMsg packageName info.version), st))
    ∧ (version ≠ "" → info.version ≠ version →
      InstallPackage st repos env globalPath localPath packageName version
          global false dev arch osName goarch goos
        = installPackageCore st repos env globalPath localPath packageName
            version global false arch osName goarch goos) := by
  constructor
  · intro h
    have hb : (version = "" || info.version = version : Bool) = true := by
      rcases h with h | h <;> simp [h]
    simp [InstallPackage, hmem, hb]
  · intro h1 h2
    have hb : (version = "" || info.version = version : Bool) = false := by
      simp [h1, h2]
    simp [InstallPackage, hmem, hb]

/-- The record installed as version 1.0.0 in the C4 scenario. -/
def installedC4 : PackageInfo :=
  { name := "p", version := "1.0.0", description := "", author := ""
    license := "", installDate := 0, installPath := "./m/p", global := false
    dependencies := [], size := 3, files := [], scripts := [] }

/-- Registry state of the C4 scenario: "p" 1.0.0 installed locally. -/
def stC4 : PMState :=
  { globalFile := [], localFile := [("p", installedC4)]
    mem := [("p", installedC4)] }

/-- The single repository of the C4 scenario, serving "p" 2.0.0 for
linux/amd64. -/
def reposC4 : List RepoEntry :=
  [({ name := "R", url := "http://r", priority := 1, enabled := true
      authToken := "" },
    [("p", { name := "p", description := "", author := "", license := ""
             homepage := "", repository := "", keywords := []
             versions := [{ version := "2.0.0", description := ""
                            dependencies := [], devDeps := []
                            files := [{ os := "linux", arch := "amd64"
                                        format := "tar.zst"
                                        filename := "p-2.0.0-linux-amd64.tar.zst"
                                        size := 5, checksum := "c" }]
                            size := 5, checksum := "", uploaded := 0
                            downloads := 0 }]
             downloads := 0, updated := 0 })])]

/-- Manifest unpacked from the 2.0.0 archive in the C4 scenario. -/
def manC4 : PackageManifest :=
  { name := "p", version := "2.0.0", description := "", author := ""
    license := "", homepage := "", repository := "", keywords := []
    dependencies := [], devDeps := [], files := [], scripts := [] }

/-- I/O outcomes of the C4 scenario: every step succeeds. -/
def envC4 : InstallEnv :=
  { download := .ok (), extract := .ok (), manifest := .ok manC4
    removeOld := .ok (), mkdirInstall := .ok (), copyStep := .ok ()
    dirSize := 5, now := 7, writeOk := true }

/-- C4 witness: requesting the empty version with `force` false on an
installed name is rejected with already-installed. -/
theorem C4_already_installed_guard_witness :
    InstallPackage stC4 reposC4 envC4 "/g" "./m" "p" "" false false false
        "" "" "amd64" "linux"
      = (.error (alreadyInstalledMsg "p" "1.0.0"), stC4) :=
  (C4_already_installed_guard stC4 reposC4 envC4 "/g" "./m" "p" "" false
    false "" "" "amd64" "linux" installedC4 (by decide)).1 (Or.inl rfl)

/-- C4 counterexample: "p" 1.0.0 is installed, version 2.0.0 is requested
with `force` false, and the install proceeds and succeeds — refuting the
claim that any change requires `force` once a record exists. -/
theorem C4_counterexample :
    (InstallPackage stC4 reposC4 envC4 "/g" "./m" "p" "2.0.0" false false
        false "" "" "amd64" "linux").1 = .ok ()
    ∧ lookupA stC4.mem "p" = some installedC4
    ∧ installedC4.version ≠ "2.0.0" := by
  refine ⟨by decide, by decide, by decide⟩

/-! ### C5: failed installs register nothing -/

/-- C5: whenever any step of `InstallPackage` fails — resolution, download,
extraction, manifest load, old-version removal, directory creation, file
copy, or the persisting write — the returned registry state is exactly the
input state: neither partition document nor the in-memory map holds a new or
partial entry. -/
theorem C5_failed_install_leaves_registry (st : PMState)
    (repos : List RepoEntry) (env : InstallEnv)
    (globalPath localPath packageName version : String)
    (global force dev : Bool) (arch osName goarch goos : String)
    (e : String) (st' : PMState)
    (h : InstallPackage st repos env globalPath localPath packageName version
        global force dev arch osName goarch goos = (.error e, st')) :
    st' = st := by
  simp only [InstallPackage, installPackageCore] at h
  repeat' split at h
  all_goals
    injection h with h1 h2
  all_goals
    first
      | exact h2.symm
      | simp at h1

/-- Registry state of the C5 scenario: nothing installed. -/
def stC5 : PMState := { globalFile := [], localFile := [], mem := [] }

/-- The single repository of the C5 scenario, serving "p" 1.0.0 for
linux/amd64. -/
def reposC5 : List RepoEntry :=
  [({ name := "R", url := "http://r", priority := 1, enabled := true
      authToken := "" },
    [("p", { name := "p", description := "", author := "", license := ""
             homepage := "", repository := "", keywords := []
             versions := [{ version := "1.0.0", description := ""
                            dependencies := [], devDeps := []
                            files := [{ os := "linux", arch := "amd64"
                                        format := "tar.zst"
                                        filename := "p-1.0.0-linux-amd64.tar.zst"
                                        size := 5, checksum := "c" }]
                            size := 5, checksum := "", uploaded := 0
                            downloads := 0 }]
             downloads := 0, updated := 0 })])]

/-- I/O outcomes of the C5 scenario: extraction fails with the message of the
source's stub codec; everything before it succeeds. -/
def envC5 : InstallEnv :=
  { download := .ok ()
    extract := .error "извлечение архивов пока не реализовано"
    manifest := .error "не достигнуто", removeOld := .ok ()
    mkdirInstall := .ok (), copyStep := .ok (), dirSize := 0, now := 0
    writeOk := true }

/-- C5 witness: an install whose extraction step fails hands back the input
registry state unchanged. -/
theorem C5_failed_install_leaves_registry_witness :
    (InstallPackage stC5 reposC5 envC5 "/g" "./m" "p" "" false false false
        "" "" "amd64" "linux").2 = stC5 :=
  C5_failed_install_leaves_registry stC5 reposC5 envC5 "/g" "./m" "p" ""
    false false false "" "" "amd64" "linux"
    "ошибка извлечения: извлечение архивов пока не реализовано"
    ((InstallPackage stC5 reposC5 envC5 "/g" "./m" "p" "" false false false
        "" "" "amd64" "linux").2)
    (by decide)

/-! ### C6: update semantics -/

/-- C6: `UpdatePackage` fails with not-installed when the name has no record;
otherwise it resolves the empty (latest) version for the given platform,
fails with already-current exactly when the resolved version equals the
installed one, and otherwise re-runs the install against the resolved version
with `force` set and the installed record's own `Global` scope. -/
theorem C6_update_semantics (st : PMState) (repos : List RepoEntry)
    (env : InstallEnv) (globalPath localPath packageName goarch goos : String) :
    (lookupA st.mem packageName = none →
      UpdatePackage st repos env globalPath localPath packageName goarch goos
        = (.error ("пакет " ++ packageName ++ " не установлен"), st))
    ∧ (∀ info latest url,
        lookupA st.mem packageName = some info →
        findPackage repos packageName "" goarch goos = .ok (latest, url) →
        ((info.version = latest.version →
            UpdatePackage st repos env globalPath localPath packageName goarch
                goos
              = (.error ("пакет " ++ packageName
                  ++ " уже имеет последнюю версию (" ++ info.version ++ ")"),
                 st))
          ∧ (info.version ≠ latest.version →
            UpdatePackage st repos env globalPath localPath packageName goarch
                goos
              = InstallPackage st repos env globalPath localPath packageName
                  latest.version info.global true false "" "" goarch goos))) := by
  refine ⟨fun hnone => ?_, fun info latest url hmem hfind => ⟨fun heq => ?_, fun hne => ?_⟩⟩
  · simp [UpdatePackage, hnone]
  · simp [UpdatePackage, hmem, hfind, heq]
  · simp [UpdatePackage, hmem, hfind, hne]

/-- The record installed as version 1.0.0 with global scope in the C6
scenario. -/
def installedC6 : PackageInfo :=
  { name := "p", version := "1.0.0", description := "", author := ""
    license := "", installDate := 0, installPath := "/g/p", global := true
    dependencies := [], size := 3, files := [], scripts := [] }

/-- Registry state of the C6 scenario: "p" 1.0.0 installed globally. -/
def stC6 : PMState :=
  { globalFile := [("p", installedC6)], localFile := []
    mem := [("p", installedC6)] }

/-- The single repository of the C6 scenario, whose latest version of "p" is
2.0.0 for linux/amd64. -/
def reposC6 : List RepoEntry :=
  [({ name := "R", url := "http://r", priority := 1, enabled := true
      authToken := "" },
    [("p", { name := "p", description := "", author := "", license := ""
             homepage := "", repository := "", keywords := []
             versions := [{ version := "2.0.0", description := ""
                            dependencies := [], devDeps := []
                            files := [{ os := "linux", arch := "amd64"
                                        format := "tar.zst"
                                        filename := "p-2.0.0-linux-amd64.tar.zst"
                                        size := 6, checksum := "c" }]
                            size := 6, checksum := "", uploaded := 0
                            downloads := 0 }]
             downloads := 0, updated := 0 })])]

/-- The resolver's answer for the latest version in the C6 scenario. -/
def latestC6 : PackageInfo :=
  { name := "p", version := "2.0.0", description := "", author := ""
    license := "", installDate := 0, installPath := "", global := false
    dependencies := [], size := 6, files := [], scripts := [] }

/-- Manifest unpacked from the 2.0.0 archive in the C6 scenario. -/
def manC6 : PackageManifest :=
  { name := "p", version := "2.0.0", description := "", author := ""
    license := "", homepage := "", repository := "", keywords := []
    dependencies := [], devDeps := [], files := [], scripts := [] }

/-- I/O outcomes of the C6 scenario: every step succeeds. -/
def envC6 : InstallEnv :=
  { download := .ok (), extract := .ok (), manifest := .ok manC6
    removeOld := .ok (), mkdirInstall := .ok (), copyStep := .ok ()
    dirSize := 6, now := 9, writeOk := true }

/-- C6 witness: with remote latest 2.0.0 over installed 1.0.0, the update is
exactly a forced install of 2.0.0 keeping the record's global scope. -/
theorem C6_update_semantics_witness :
    UpdatePackage stC6 reposC6 envC6 "/g" "./m" "p" "amd64" "linux"
      = InstallPackage stC6 reposC6 envC6 "/g" "./m" "p" "2.0.0" true true
          false "" "" "amd64" "linux" :=
  ((C6_update_semantics stC6 reposC6 envC6 "/g" "./m" "p" "amd64" "linux").2
    installedC6 latestC6
    "http://r/api/v1/download/p/2.0.0/p-2.0.0-linux-amd64.tar.zst"
    (by decide) (by decide)).2 (by decide)

/-! ### C7: search fans out, tolerates failures, sorts by score -/

/-- Specification-side description of the gathered search results: the
concatenation, in repository order, of each enabled repository's successful
result list, with failing repositories contributing the empty list. -/
def searchConcat (repos : List SearchEntry) : List SearchResult :=
  (repos.map (fun entry =>
    if entry.1.enabled then
      match entry.2 with
      | .ok results => results
      | .error _ => []
    else [])).flatten

theorem searchGather_eq_concat (repos : List SearchEntry) :
    searchGather repos = searchConcat repos := by
  have haux : ∀ (l : List SearchEntry) (acc : List SearchResult),
      l.foldl
        (fun acc entry =>
          if entry.1.enabled then
            match entry.2 with
            | .ok results => acc ++ results
            | .error _ => acc
          else acc)
        acc = acc ++ searchConcat l := by
    intro l
    induction l with
    | nil => intro acc; simp [searchConcat]
    | cons e tl ih =>
      intro acc
      obtain ⟨re, rres⟩ := e
      by_cases hen : re.enabled
      · cases rres with
        | ok results =>
          simp [List.foldl_cons, hen, ih, searchConcat, List.append_assoc]
        | error msg =>
          simp [List.foldl_cons, hen, ih, searchConcat]
      · simp [List.foldl_cons, hen, ih, searchConcat]
  simpa [searchGather, searchConcat] using haux repos []

/-- C7: the search result is a permutation of the concatenation of every
enabled repository's successful results (a failing repository contributes
zero entries and aborts nothing), and it is sorted by non-increasing
relevance score. -/
theorem C7_search_fans_out_and_sorts (repos : List SearchEntry) :
    (SearchPackages repos).Perm (searchConcat repos)
    ∧ (SearchPackages repos).Pairwise
        (fun a b => b.score ≤ a.score) := by
  constructor
  · have hp := List.mergeSort_perm (searchGather repos)
      (fun a b => b.score ≤ a.score)
    exact hp.trans (by rw [searchGather_eq_concat])
  · have hs := @List.sorted_mergeSort SearchResult
      (fun a b : SearchResult => b.score ≤ a.score)
      (fun a b c hab hbc => by
        simp only [decide_eq_true_eq] at hab hbc ⊢
        omega)
      (fun a b => by
        simp only [Bool.or_eq_true, decide_eq_true_eq]
        omega)
      (searchGather repos)
    exact hs.imp (fun hab => by simpa using hab)

/-! ### C9: uninstall ignores the record's own scope -/

/-- C9: `UninstallPackage` only checks that the name has a record in the
name-keyed in-memory map — the `global` argument is never compared with the
record's own `Global` field.  Uninstalling a globally installed record with
`global = false` succeeds: the in-memory entry is dropped and the local
partition document gets the delete, while the global partition document — the
record's real partition — is left unchanged and still holds the record. -/
theorem C9_uninstall_scope_mismatch (st : PMState) (env : UninstallEnv)
    (packageName : String) (purge : Bool) (info : PackageInfo)
    (hmem : lookupA st.mem packageName = some info)
    (hglobal : info.global = true)
    (hfile : lookupA st.globalFile packageName = some info)
    (hrm : env.removeDir = .ok ())
    (hw : env.writeOk = true) :
    UninstallPackage st env packageName false purge
      = (.ok (), { globalFile := st.globalFile
                   localFile := eraseA st.localFile packageName
                   mem := eraseA st.mem packageName })
    ∧ lookupA (eraseA st.mem packageName) packageName = none
    ∧ lookupA st.globalFile packageName = some info := by
  refine ⟨?_, lookupA_eraseA_self _ _, hfile⟩
  simp [UninstallPackage, hmem, hrm, removePackageInfo, hw]

/-- The record installed globally in the C9 scenario. -/
def installedC9 : PackageInfo :=
  { name := "p", version := "1.0.0", description := "", author := ""
    license := "", installDate := 0, installPath := "/g/p", global := true
    dependencies := [], size := 4, files := [], scripts := [] }

/-- An unrelated record living in the local partition in the C9 scenario. -/
def otherC9 : PackageInfo :=
  { name := "other", version := "0.1.0", description := "", author := ""
    license := "", installDate := 0, installPath := "./m/other"
    global := false, dependencies := [], size := 1, files := [], scripts := [] }

/-- Registry state of the C9 scenario: "p" installed globally, "other"
installed locally. -/
def stC9 : PMState :=
  { globalFile := [("p", installedC9)], localFile := [("other", otherC9)]
    mem := [("p", installedC9), ("other", otherC9)] }

/-- I/O outcomes of the C9 scenario: directory removal and file write both
succeed. -/
def envC9 : UninstallEnv := { removeDir := .ok (), writeOk := true }

/-- C9 witness: uninstalling the globally installed "p" with `global = false`
succeeds, erases the in-memory entry, rewrites only the local partition, and
leaves "p" registered in the global partition document. -/
theorem C9_uninstall_scope_mismatch_witness :
    UninstallPackage stC9 envC9 "p" false false
      = (.ok (), { globalFile := stC9.globalFile
                   localFile := eraseA stC9.localFile "p"
                   mem := eraseA stC9.mem "p" })
    ∧ lookupA (eraseA stC9.mem "p") "p" = none
    ∧ lookupA stC9.globalFile "p" = some installedC9 :=
  C9_uninstall_scope_mismatch stC9 envC9 "p" false installedC9 (by decide)
    (by decide) (by decide) (by decide) (by decide)

/-! ### C10: in-memory key versus persisted key -/

/-- C10: after a successful `InstallPackage`, the in-memory map binds the
requested name to the created record, while the record's `Name` field and
its key in the persisted partition document both come from the unpacked
manifest; when the manifest name differs from the requested name the two
keys differ, and the partition document's binding under the requested name
is untouched. -/
theorem C10_mem_key_requested_file_key_manifest (st : PMState)
    (repos : List RepoEntry) (env : InstallEnv)
    (globalPath localPath packageName version : String)
    (global force dev : Bool) (arch osName goarch goos : String)
    (man : PackageManifest)
    (hman : env.manifest = .ok man)
    (hok : (InstallPackage st repos env globalPath localPath packageName
        version global force dev arch osName goarch goos).1 = .ok ()) :
    lookupA (InstallPackage st repos env globalPath localPath packageName
        version global force dev arch osName goarch goos).2.mem packageName
      = some (installedRecord man env
          (getInstallPath globalPath localPath packageName global) global)
    ∧ (installedRecord man env
        (getInstallPath globalPath localPath packageName global) global).name
      = man.name
    ∧ lookupA
        (if global then
          (InstallPackage st repos env globalPath localPath packageName
            version global force dev arch osName goarch goos).2.globalFile
         else
          (InstallPackage st repos env globalPath localPath packageName
            version global force dev arch osName goarch goos).2.localFile)
        man.name
      = some (installedRecord man env
          (getInstallPath globalPath localPath packageName global) global)
    ∧ (man.name ≠ packageName →
        lookupA
          (if global then
            (InstallPackage st repos env globalPath localPath packageName
              version global force dev arch osName goarch goos).2.globalFile
           else
            (InstallPackage st repos env globalPath localPath packageName
              version global force dev arch osName goarch goos).2.localFile)
          packageName
        = lookupA (if global then st.globalFile else st.localFile)
            packageName) := by
  simp only [InstallPackage, installPackageCore] at hok ⊢
  repeat' split at hok
  all_goals simp_all [savePackageInfo, installedRecord]
  all_goals
    (rename_i heqsave
     split at heqsave
     · split at heqsave <;> rename_i hgl
       · subst hgl
         injection heqsave with heqsave
         subst heqsave
         exact ⟨lookupA_insertA_self _ _ _, lookupA_insertA_self _ _ _,
           fun hne => lookupA_insertA_ne _ _ _ _ hne⟩
       · rw [Bool.not_eq_true] at hgl
         subst hgl
         injection heqsave with heqsave
         subst heqsave
         exact ⟨lookupA_insertA_self _ _ _, lookupA_insertA_self _ _ _,
           fun hne => lookupA_insertA_ne _ _ _ _ hne⟩
     · exact absurd heqsave (by simp))

/-- Registry state of the C10 scenario: nothing installed. -/
def stC10 : PMState := { globalFile := [], localFile := [], mem := [] }

/-- The single repository of the C10 scenario, serving "p" 1.0.0 for
linux/amd64. -/
def reposC10 : List RepoEntry :=
  [({ name := "R", url := "http://r", priority := 1, enabled := true
      authToken := "" },
    [("p", { name := "p", description := "", author := "", license := ""
             homepage := "", repository := "", keywords := []
             versions := [{ version := "1.0.0", description := ""
                            dependencies := [], devDeps := []
                            files := [{ os := "linux", arch := "amd64"
                                        format := "tar.zst"
                                        filename := "p-1.0.0-linux-amd64.tar.zst"
                                        size := 5, checksum := "c" }]
                            size := 5, checksum := "", uploaded := 0
                            downloads := 0 }]
             downloads := 0, updated := 0 })])]

/-- Manifest of the C10 scenario: it declares the name "realname", different
from the requested name "p". -/
def manC10 : PackageManifest :=
  { name := "realname", version := "1.0.0", description := "", author := ""
    license := "", homepage := "", repository := "", keywords := []
    dependencies := [], devDeps := [], files := [], scripts := [] }

/-- I/O outcomes of the C10 scenario: every step succeeds. -/
def envC10 : InstallEnv :=
  { download := .ok (), extract := .ok (), manifest := .ok manC10
    removeOld := .ok (), mkdirInstall := .ok (), copyStep := .ok ()
    dirSize := 5, now := 3, writeOk := true }

/-- C10 witness: installing under the requested name "p" a package whose
manifest says "realname" binds "p" in memory and "realname" in the local
partition document, leaving the document's "p" binding untouched. -/
theorem C10_mem_key_requested_file_key_manifest_witness :
    lookupA (InstallPackage stC10 reposC10 envC10 "/g" "./m" "p" "" false
        false false "" "" "amd64" "linux").2.mem "p"
      = some (installedRecord manC10 envC10 (getInstallPath "/g" "./m" "p"
          false) false)
    ∧ (installedRecord manC10 envC10 (getInstallPath "/g" "./m" "p" false)
        false).name = manC10.name
    ∧ lookupA (InstallPackage stC10 reposC10 envC10 "/g" "./m" "p" "" false
        false false "" "" "amd64" "linux").2.localFile manC10.name
      = some (installedRecord manC10 envC10 (getInstallPath "/g" "./m" "p"
          false) false)
    ∧ (manC10.name ≠ "p" →
        lookupA (InstallPackage stC10 reposC10 envC10 "/g" "./m" "p" "" false
            false false "" "" "amd64" "linux").2.localFile "p"
          = lookupA stC10.localFile "p") :=
  C10_mem_key_requested_file_key_manifest stC10 reposC10 envC10 "/g" "./m"
    "p" "" false false false "" "" "amd64" "linux" manC10 rfl (by decide)

end Criage
